import Mathlib

/-!
Verification of the `lancor` llama.cpp client (src/main.rs).

The development shallowly embeds the data model, the request builders, the
JSON (de)serialization behaviour of the `serde` derives on the request and
response types, the HTTP status handling of the four client operations, and
the streaming SSE decoder of `chat_completion_stream`.

Bytes are modelled as `Nat` (values < 256), text as `List Char`, `f32`
values as `Rat` (they are only carried, never computed with), `u32`/`u64`
as `Nat`.  External library behaviour that the code relies on is embedded
faithfully at the level the claims need: `String::from_utf8_lossy`
(WHATWG maximal-subpart lossy UTF-8 decoding), `str::lines`,
`serde_json::from_str` (a JSON text parser plus the field semantics of the
serde derives), and `reqwest::StatusCode::is_success` (200..=299).
-/

namespace Lancor

/-- JSON values.  `num` holds integral numbers (the only numbers the
response types deserialize), `fnum` holds `f32` values serialized from
requests, modelled as `Rat`. -/
inductive Json where
| null : Json
| bool (b : Bool) : Json
| num (n : Int) : Json
| fnum (x : Rat) : Json
| str (s : String) : Json
| arr (xs : List Json) : Json
| obj (kvs : List (String × Json)) : Json

/-- `Message` from src/main.rs lines 27-31. -/
structure Message where
  role : String
  content : String
deriving DecidableEq

/-- `Usage` from src/main.rs lines 142-147: `completion_tokens` is optional. -/
structure Usage where
  prompt_tokens : Nat
  completion_tokens : Option Nat
  total_tokens : Nat
deriving DecidableEq

/-- `ChatChoice` from src/main.rs lines 87-92. -/
structure ChatChoice where
  index : Nat
  message : Message
  finish_reason : Option String
deriving DecidableEq

/-- `ChatCompletionResponse` from src/main.rs lines 77-85. -/
structure ChatCompletionResponse where
  id : String
  object : String
  created : Nat
  model : String
  choices : List ChatChoice
  usage : Usage
deriving DecidableEq

/-- `Delta` from src/main.rs lines 110-116: both fields optional. -/
structure Delta where
  role : Option String
  content : Option String
deriving DecidableEq

/-- `ChatChoiceDelta` from src/main.rs lines 103-108. -/
structure ChatChoiceDelta where
  index : Nat
  delta : Delta
  finish_reason : Option String
deriving DecidableEq

/-- `ChatCompletionChunk` from src/main.rs lines 94-101. -/
structure ChatCompletionChunk where
  id : String
  object : String
  created : Nat
  model : String
  choices : List ChatChoiceDelta
deriving DecidableEq

/-- `CompletionResponse` from src/main.rs lines 118-125. -/
structure CompletionResponse where
  content : String
  model : Option String
  stop : Option Bool
  tokens_predicted : Option Nat
  tokens_evaluated : Option Nat
deriving DecidableEq

/-- `EmbeddingData` from src/main.rs lines 135-140 (`f32` as `Rat`). -/
structure EmbeddingData where
  object : String
  embedding : List Rat
  index : Nat
deriving DecidableEq

/-- `EmbeddingResponse` from src/main.rs lines 127-133. -/
structure EmbeddingResponse where
  object : String
  data : List EmbeddingData
  model : String
  usage : Usage
deriving DecidableEq

/-- Look a key up in a JSON object's field list (first occurrence). -/
def findField (kvs : List (String × Json)) (k : String) : Option Json :=
  match kvs with
  | [] => none
  | (k2, v) :: rest => if k2 = k then some v else findField rest k

/-- serde: a `String` field value. -/
def asStr : Json → Except String String
  | .str s => .ok s
  | _ => .error "expected string"

/-- serde: a `u32` field value (integral, in range). -/
def asU32 : Json → Except String Nat
  | .num n => if 0 ≤ n ∧ n < 4294967296 then .ok n.toNat else .error "invalid u32"
  | _ => .error "expected u32"

/-- serde: a `u64` field value (integral, in range). -/
def asU64 : Json → Except String Nat
  | .num n =>
    if 0 ≤ n ∧ n < 18446744073709551616 then .ok n.toNat else .error "invalid u64"
  | _ => .error "expected u64"

/-- serde: an `Option<String>` field — absent or `null` maps to `none`. -/
def asOptStr : Option Json → Except String (Option String)
  | none => .ok none
  | some .null => .ok none
  | some (.str s) => .ok (some s)
  | some _ => .error "expected string or null"

/-- serde: an `Option<u32>` field — absent or `null` maps to `none`. -/
def asOptU32 : Option Json → Except String (Option Nat)
  | none => .ok none
  | some .null => .ok none
  | some (.num n) =>
    if 0 ≤ n ∧ n < 4294967296 then .ok (some n.toNat) else .error "invalid u32"
  | some _ => .error "expected u32 or null"

/-- serde: a required field that must be present. -/
def reqField (kvs : List (String × Json)) (k : String) : Except String Json :=
  match findField kvs k with
  | some j => .ok j
  | none => .error ("missing field: " ++ k)

/-- serde: required `String` field. -/
def reqStr (kvs : List (String × Json)) (k : String) : Except String String :=
  match findField kvs k with
  | some j => asStr j
  | none => .error ("missing field: " ++ k)

/-- serde: required `u32` field. -/
def reqU32 (kvs : List (String × Json)) (k : String) : Except String Nat :=
  match findField kvs k with
  | some j => asU32 j
  | none => .error ("missing field: " ++ k)

/-- serde: required `u64` field. -/
def reqU64 (kvs : List (String × Json)) (k : String) : Except String Nat :=
  match findField kvs k with
  | some j => asU64 j
  | none => .error ("missing field: " ++ k)

/-- Deserialize `Message` (derived `Deserialize`, src/main.rs line 27). -/
def fromJsonMessage : Json → Except String Message
  | .obj kvs =>
    match reqStr kvs "role", reqStr kvs "content" with
    | .ok r, .ok c => .ok ⟨r, c⟩
    | .error e, _ => .error e
    | _, .error e => .error e
  | _ => .error "expected object"

/-- Deserialize `Usage` (derived `Deserialize`, src/main.rs lines 142-147). -/
def fromJsonUsage : Json → Except String Usage
  | .obj kvs =>
    match reqU32 kvs "prompt_tokens", asOptU32 (findField kvs "completion_tokens"),
        reqU32 kvs "total_tokens" with
    | .ok p, .ok c, .ok t => .ok ⟨p, c, t⟩
    | .error e, _, _ => .error e
    | _, .error e, _ => .error e
    | _, _, .error e => .error e
  | _ => .error "expected object"

/-- Deserialize `ChatChoice` (derived `Deserialize`, src/main.rs lines 87-92). -/
def fromJsonChatChoice : Json → Except String ChatChoice
  | .obj kvs =>
    match reqU32 kvs "index",
        (reqField kvs "message").bind fromJsonMessage,
        asOptStr (findField kvs "finish_reason") with
    | .ok i, .ok m, .ok f => .ok ⟨i, m, f⟩
    | .error e, _, _ => .error e
    | _, .error e, _ => .error e
    | _, _, .error e => .error e
  | _ => .error "expected object"

/-- serde: required `Vec<ChatChoice>` field `choices`. -/
def reqChoices (kvs : List (String × Json)) : Except String (List ChatChoice) :=
  match findField kvs "choices" with
  | some (.arr xs) => xs.mapM fromJsonChatChoice
  | some _ => .error "expected array"
  | none => .error "missing field: choices"

/-- serde: required `Usage` field `usage`. -/
def reqUsage (kvs : List (String × Json)) : Except String Usage :=
  match findField kvs "usage" with
  | some j => fromJsonUsage j
  | none => .error "missing field: usage"

/-- Deserialize `ChatCompletionResponse` (derived `Deserialize`,
src/main.rs lines 77-85). -/
def fromJsonChatCompletionResponse : Json → Except String ChatCompletionResponse
  | .obj kvs =>
    match reqStr kvs "id", reqStr kvs "object", reqU64 kvs "created",
        reqStr kvs "model", reqChoices kvs, reqUsage kvs with
    | .ok i, .ok o, .ok cr, .ok m, .ok ch, .ok u => .ok ⟨i, o, cr, m, ch, u⟩
    | .error e, _, _, _, _, _ => .error e
    | _, .error e, _, _, _, _ => .error e
    | _, _, .error e, _, _, _ => .error e
    | _, _, _, .error e, _, _ => .error e
    | _, _, _, _, .error e, _ => .error e
    | _, _, _, _, _, .error e => .error e
  | _ => .error "expected object"

/-- Deserialize `Delta` (derived `Deserialize`, src/main.rs lines 110-116). -/
def fromJsonDelta : Json → Except String Delta
  | .obj kvs =>
    match asOptStr (findField kvs "role"), asOptStr (findField kvs "content") with
    | .ok r, .ok c => .ok ⟨r, c⟩
    | .error e, _ => .error e
    | _, .error e => .error e
  | _ => .error "expected object"

/-- Deserialize `ChatChoiceDelta` (derived `Deserialize`,
src/main.rs lines 103-108). -/
def fromJsonChatChoiceDelta : Json → Except String ChatChoiceDelta
  | .obj kvs =>
    match reqU32 kvs "index",
        (reqField kvs "delta").bind fromJsonDelta,
        asOptStr (findField kvs "finish_reason") with
    | .ok i, .ok d, .ok f => .ok ⟨i, d, f⟩
    | .error e, _, _ => .error e
    | _, .error e, _ => .error e
    | _, _, .error e => .error e
  | _ => .error "expected object"

/-- serde: required `Vec<ChatChoiceDelta>` field `choices`. -/
def reqChoiceDeltas (kvs : List (String × Json)) : Except String (List ChatChoiceDelta) :=
  match findField kvs "choices" with
  | some (.arr xs) => xs.mapM fromJsonChatChoiceDelta
  | some _ => .error "expected array"
  | none => .error "missing field: choices"

/-- Deserialize `ChatCompletionChunk` (derived `Deserialize`,
src/main.rs lines 94-101). -/
def fromJsonChatCompletionChunk : Json → Except String ChatCompletionChunk
  | .obj kvs =>
    match reqStr kvs "id", reqStr kvs "object", reqU64 kvs "created",
        reqStr kvs "model", reqChoiceDeltas kvs with
    | .ok i, .ok o, .ok cr, .ok m, .ok ch => .ok ⟨i, o, cr, m, ch⟩
    | .error e, _, _, _, _ => .error e
    | _, .error e, _, _, _ => .error e
    | _, _, .error e, _, _ => .error e
    | _, _, _, .error e, _ => .error e
    | _, _, _, _, .error e => .error e
  | _ => .error "expected object"

/-! ### JSON text parsing (model of `serde_json::from_str`) -/

/-- The double-quote character. -/
def qt : Char := Char.ofNat 34

/-- The backslash character. -/
def bsl : Char := Char.ofNat 92

/-- The opening curly bracket character. -/
def lcb : Char := Char.ofNat 123

/-- The closing curly bracket character. -/
def rcb : Char := Char.ofNat 125

/-- JSON whitespace. -/
def isWsChar (c : Char) : Bool :=
  c == ' ' || c == Char.ofNat 9 || c == '\n' || c == Char.ofNat 13

/-- Drop leading JSON whitespace. -/
def skipWs : List Char → List Char
  | [] => []
  | c :: cs => if isWsChar c then skipWs cs else c :: cs

/-- Value of a JSON escape character. -/
def escChar (c : Char) : Option Char :=
  if c = qt then some qt
  else if c = bsl then some bsl
  else if c = '/' then some '/'
  else if c = 'n' then some '\n'
  else if c = 't' then some (Char.ofNat 9)
  else if c = 'r' then some (Char.ofNat 13)
  else if c = 'b' then some (Char.ofNat 8)
  else if c = 'f' then some (Char.ofNat 12)
  else none

/-- Parse the body of a JSON string after the opening quote; returns the
content and the input remaining after the closing quote. -/
def parseStrBody : List Char → Option (List Char × List Char)
  | [] => none
  | c :: cs =>
    if c = qt then some ([], cs)
    else if c = bsl then
      match cs with
      | [] => none
      | e :: cs2 =>
        match escChar e with
        | some ce =>
          match parseStrBody cs2 with
          | some (s, r) => some (ce :: s, r)
          | none => none
        | none => none
    else
      match parseStrBody cs with
      | some (s, r) => some (c :: s, r)
      | none => none

/-- Digits of a nonempty decimal literal, as a `Nat`. -/
def digitsToNat (ds : List Char) : Nat :=
  ds.foldl (fun a c => a * 10 + (c.toNat - 48)) 0

mutual

/-- Parse one JSON value (fuel-indexed recursive descent). -/
def parseV : Nat → List Char → Option (Json × List Char)
  | 0, _ => none
  | fuel + 1, cs =>
    match skipWs cs with
    | [] => none
    | c :: cs2 =>
      if c = lcb then
        match skipWs cs2 with
        | [] => none
        | r :: cs3 =>
          if r = rcb then some (.obj [], cs3)
          else
            match parseMembers fuel (r :: cs3) with
            | some (kvs, rest) => some (.obj kvs, rest)
            | none => none
      else if c = '[' then
        match skipWs cs2 with
        | [] => none
        | r :: cs3 =>
          if r = ']' then some (.arr [], cs3)
          else
            match parseElems fuel (r :: cs3) with
            | some (xs, rest) => some (.arr xs, rest)
            | none => none
      else if c = qt then
        match parseStrBody cs2 with
        | some (s, r) => some (.str (String.mk s), r)
        | none => none
      else if c = 't' then
        match cs2 with
        | 'r' :: 'u' :: 'e' :: r => some (.bool true, r)
        | _ => none
      else if c = 'f' then
        match cs2 with
        | 'a' :: 'l' :: 's' :: 'e' :: r => some (.bool false, r)
        | _ => none
      else if c = 'n' then
        match cs2 with
        | 'u' :: 'l' :: 'l' :: r => some (.null, r)
        | _ => none
      else if c = '-' then
        match cs2.takeWhile Char.isDigit, cs2.dropWhile Char.isDigit with
        | [], _ => none
        | ds, r => some (.num (-(Int.ofNat (digitsToNat ds))), r)
      else if c.isDigit then
        match (c :: cs2).takeWhile Char.isDigit, (c :: cs2).dropWhile Char.isDigit with
        | ds, r => some (.num (Int.ofNat (digitsToNat ds)), r)
      else none

/-- Parse the nonempty member list of a JSON object, including the
closing bracket. -/
def parseMembers : Nat → List Char → Option (List (String × Json) × List Char)
  | 0, _ => none
  | fuel + 1, cs =>
    match skipWs cs with
    | [] => none
    | c :: cs2 =>
      if c = qt then
        match parseStrBody cs2 with
        | some (k, r1) =>
          match skipWs r1 with
          | [] => none
          | c2 :: r2 =>
            if c2 = ':' then
              match parseV fuel r2 with
              | some (v, r3) =>
                match skipWs r3 with
                | [] => none
                | c3 :: r4 =>
                  if c3 = ',' then
                    match parseMembers fuel r4 with
                    | some (kvs, r5) => some ((String.mk k, v) :: kvs, r5)
                    | none => none
                  else if c3 = rcb then some ([(String.mk k, v)], r4)
                  else none
              | none => none
            else none
        | none => none
      else none

/-- Parse the nonempty element list of a JSON array, including the
closing bracket. -/
def parseElems : Nat → List Char → Option (List Json × List Char)
  | 0, _ => none
  | fuel + 1, cs =>
    match parseV fuel cs with
    | some (v, r1) =>
      match skipWs r1 with
      | [] => none
      | c :: r2 =>
        if c = ',' then
          match parseElems fuel r2 with
          | some (xs, r3) => some (v :: xs, r3)
          | none => none
        else if c = ']' then some (v :: [], r2)
        else none
    | none => none

end

/-- Parse a complete JSON document (model of `serde_json` text parsing;
trailing content other than whitespace is rejected). -/
def parseJsonText (cs : List Char) : Option Json :=
  match parseV (cs.length + 1) cs with
  | some (j, r) => if skipWs r = [] then some j else none
  | none => none

/-- Model of `serde_json::from_str::<ChatCompletionChunk>` as used at
src/main.rs line 261. -/
def parseChunkText (cs : List Char) : Except String ChatCompletionChunk :=
  match parseJsonText cs with
  | none => .error "invalid JSON"
  | some j => fromJsonChatCompletionChunk j

/-! ### Request types, builders (src/main.rs lines 11-71 and 333-416) -/

/-- `ChatCompletionRequest` from src/main.rs lines 11-25 (`f32` as `Rat`,
`u32` as `Nat`). -/
structure ChatCompletionRequest where
  model : String
  messages : List Message
  temperature : Option Rat
  max_tokens : Option Nat
  top_p : Option Rat
  stream : Option Bool
  stop : Option (List String)
deriving DecidableEq

/-- `CompletionRequest` from src/main.rs lines 55-65. -/
structure CompletionRequest where
  model : String
  prompt : String
  temperature : Option Rat
  max_tokens : Option Nat
  stream : Option Bool
deriving DecidableEq

/-- `EmbeddingRequest` from src/main.rs lines 67-71. -/
structure EmbeddingRequest where
  model : String
  input : String
deriving DecidableEq

/-- `ChatCompletionRequest::new` (src/main.rs lines 334-344). -/
def ChatCompletionRequest.new (model : String) : ChatCompletionRequest :=
  ⟨model, [], none, none, none, none, none⟩

/-- `ChatCompletionRequest::message` (src/main.rs lines 346-349): pushes
onto the existing message list. -/
def ChatCompletionRequest.message (r : ChatCompletionRequest) (m : Message) :
    ChatCompletionRequest :=
  { r with messages := r.messages ++ [m] }

/-- `ChatCompletionRequest::messages` (src/main.rs lines 351-354): replaces
the whole message list.  (The source method is named `messages`; that name
is taken by the field projection in Lean.) -/
def ChatCompletionRequest.setMessages (r : ChatCompletionRequest) (ms : List Message) :
    ChatCompletionRequest :=
  { r with messages := ms }

/-- `ChatCompletionRequest::temperature` (src/main.rs lines 356-359). -/
def ChatCompletionRequest.setTemperature (r : ChatCompletionRequest) (t : Rat) :
    ChatCompletionRequest :=
  { r with temperature := some t }

/-- `ChatCompletionRequest::max_tokens` (src/main.rs lines 361-364). -/
def ChatCompletionRequest.setMaxTokens (r : ChatCompletionRequest) (n : Nat) :
    ChatCompletionRequest :=
  { r with max_tokens := some n }

/-- `ChatCompletionRequest::top_p` (src/main.rs lines 366-369). -/
def ChatCompletionRequest.setTopP (r : ChatCompletionRequest) (x : Rat) :
    ChatCompletionRequest :=
  { r with top_p := some x }

/-- `ChatCompletionRequest::stream` (src/main.rs lines 371-374). -/
def ChatCompletionRequest.setStream (r : ChatCompletionRequest) (b : Bool) :
    ChatCompletionRequest :=
  { r with stream := some b }

/-- `ChatCompletionRequest::stop` (src/main.rs lines 376-379). -/
def ChatCompletionRequest.setStop (r : ChatCompletionRequest) (xs : List String) :
    ChatCompletionRequest :=
  { r with stop := some xs }

/-- `CompletionRequest::new` (src/main.rs lines 383-391). -/
def CompletionRequest.new (model : String) (prompt : String) : CompletionRequest :=
  ⟨model, prompt, none, none, none⟩

/-- `CompletionRequest::temperature` (src/main.rs lines 393-396). -/
def CompletionRequest.setTemperature (r : CompletionRequest) (t : Rat) :
    CompletionRequest :=
  { r with temperature := some t }

/-- `CompletionRequest::max_tokens` (src/main.rs lines 398-401). -/
def CompletionRequest.setMaxTokens (r : CompletionRequest) (n : Nat) :
    CompletionRequest :=
  { r with max_tokens := some n }

/-- `CompletionRequest::stream` (src/main.rs lines 403-406). -/
def CompletionRequest.setStream (r : CompletionRequest) (b : Bool) :
    CompletionRequest :=
  { r with stream := some b }

/-- `EmbeddingRequest::new` (src/main.rs lines 410-415). -/
def EmbeddingRequest.new (model : String) (input : String) : EmbeddingRequest :=
  ⟨model, input⟩

/-! ### Request serialization (derived `Serialize` with
`skip_serializing_if = "Option::is_none"`) -/

/-- Serialize `Message` (derived `Serialize`, src/main.rs line 27). -/
def Message.toJson (m : Message) : Json :=
  .obj [("role", .str m.role), ("content", .str m.content)]

/-- One optional struct field: skipped entirely when `none`
(`skip_serializing_if = "Option::is_none"`). -/
def optField (k : String) : Option Json → List (String × Json)
  | none => []
  | some v => [(k, v)]

/-- The serialized fields of a `ChatCompletionRequest`, in declaration
order, with unset optionals skipped (src/main.rs lines 11-25). -/
def chatReqFields (r : ChatCompletionRequest) : List (String × Json) :=
  ("model", .str r.model)
    :: ("messages", .arr (r.messages.map Message.toJson))
    :: (optField "temperature" (r.temperature.map Json.fnum)
      ++ optField "max_tokens" (r.max_tokens.map (fun n => Json.num (Int.ofNat n)))
      ++ optField "top_p" (r.top_p.map Json.fnum)
      ++ optField "stream" (r.stream.map Json.bool)
      ++ optField "stop" (r.stop.map (fun xs => Json.arr (xs.map Json.str))))

/-- Serialize `ChatCompletionRequest`. -/
def ChatCompletionRequest.toJson (r : ChatCompletionRequest) : Json :=
  .obj (chatReqFields r)

/-- The serialized fields of a `CompletionRequest`, in declaration order,
with unset optionals skipped (src/main.rs lines 55-65). -/
def completionReqFields (r : CompletionRequest) : List (String × Json) :=
  ("model", .str r.model)
    :: ("prompt", .str r.prompt)
    :: (optField "temperature" (r.temperature.map Json.fnum)
      ++ optField "max_tokens" (r.max_tokens.map (fun n => Json.num (Int.ofNat n)))
      ++ optField "stream" (r.stream.map Json.bool))

/-- Serialize `CompletionRequest`. -/
def CompletionRequest.toJson (r : CompletionRequest) : Json :=
  .obj (completionReqFields r)

/-! ### Lossy UTF-8 decoding (model of `String::from_utf8_lossy`,
src/main.rs line 252) -/

/-- The Unicode replacement character U+FFFD. -/
def repl : Char := Char.ofNat 0xFFFD

/-- A UTF-8 continuation byte (`0x80..=0xBF`). -/
def isCont (b : Nat) : Bool := 0x80 ≤ b && b < 0xC0

/-- Valid second byte of a UTF-8 sequence with lead byte `b0`
(the restricted ranges exclude overlong and surrogate encodings,
exactly as Rust's UTF-8 validation does). -/
def validSnd (b0 b1 : Nat) : Bool :=
  if b0 = 0xE0 then 0xA0 ≤ b1 && b1 < 0xC0
  else if b0 = 0xED then 0x80 ≤ b1 && b1 < 0xA0
  else if b0 = 0xF0 then 0x90 ≤ b1 && b1 < 0xC0
  else if b0 = 0xF4 then 0x80 ≤ b1 && b1 < 0x90
  else isCont b1

/-- Lossy UTF-8 decoding with replacement of maximal invalid subparts,
as `String::from_utf8_lossy` does: each invalid maximal subpart becomes
one U+FFFD, and decoding resumes at the first byte not part of it.
The fuel only bounds the recursion; every step consumes at least one
byte, so fuel equal to the byte count never runs out. -/
def utf8Go : Nat → List Nat → List Char
  | 0, _ => []
  | _, [] => []
  | fuel + 1, b0 :: rest =>
    if b0 < 0x80 then Char.ofNat b0 :: utf8Go fuel rest
    else if b0 < 0xC2 then repl :: utf8Go fuel rest
    else if b0 < 0xE0 then
      match rest with
      | [] => [repl]
      | b1 :: rest2 =>
        if isCont b1 then
          Char.ofNat (((b0 - 0xC0) <<< 6) + (b1 - 0x80)) :: utf8Go fuel rest2
        else repl :: utf8Go fuel (b1 :: rest2)
    else if b0 < 0xF0 then
      match rest with
      | [] => [repl]
      | b1 :: rest2 =>
        if validSnd b0 b1 then
          match rest2 with
          | [] => [repl]
          | b2 :: rest3 =>
            if isCont b2 then
              Char.ofNat (((b0 - 0xE0) <<< 12) + ((b1 - 0x80) <<< 6) + (b2 - 0x80))
                :: utf8Go fuel rest3
            else repl :: utf8Go fuel (b2 :: rest3)
        else repl :: utf8Go fuel (b1 :: rest2)
    else if b0 < 0xF5 then
      match rest with
      | [] => [repl]
      | b1 :: rest2 =>
        if validSnd b0 b1 then
          match rest2 with
          | [] => [repl]
          | b2 :: rest3 =>
            if isCont b2 then
              match rest3 with
              | [] => [repl]
              | b3 :: rest4 =>
                if isCont b3 then
                  Char.ofNat (((b0 - 0xF0) <<< 18) + ((b1 - 0x80) <<< 12)
                      + ((b2 - 0x80) <<< 6) + (b3 - 0x80))
                    :: utf8Go fuel rest4
                else repl :: utf8Go fuel (b3 :: rest4)
            else repl :: utf8Go fuel (b2 :: rest3)
        else repl :: utf8Go fuel (b1 :: rest2)
    else repl :: utf8Go fuel rest

/-- Model of `String::from_utf8_lossy` (src/main.rs line 252). -/
def utf8DecodeLossy (bs : List Nat) : List Char :=
  utf8Go bs.length bs

/-! ### Line splitting (model of `str::lines`, src/main.rs line 254) -/

/-- Split on `'\n'`, keeping every segment (`n` newlines give `n + 1`
segments). -/
def splitOnNl : List Char → List (List Char)
  | [] => [[]]
  | c :: cs =>
    if c = '\n' then [] :: splitOnNl cs
    else
      match splitOnNl cs with
      | s :: ss => (c :: s) :: ss
      | [] => [[c]]

/-- Remove one trailing carriage return, as `str::lines` does for lines
terminated by `"\r\n"`. -/
def stripTrailingCr (l : List Char) : List Char :=
  if l.getLast? = some (Char.ofNat 13) then l.dropLast else l

/-- Turn the newline-split segments into `str::lines` output: every
segment but the last was newline-terminated and loses a trailing
carriage return; a final empty segment (trailing newline or empty input)
is dropped. -/
def linesGo : List (List Char) → List (List Char)
  | [] => []
  | [last] => if last = [] then [] else [last]
  | seg :: rest => stripTrailingCr seg :: linesGo rest

/-- Model of `str::lines`. -/
def rustLines (s : List Char) : List (List Char) :=
  linesGo (splitOnNl s)

/-! ### The streaming SSE decoder (src/main.rs lines 250-267) -/

/-- The `"data: "` marker checked by `line.starts_with("data: ")`. -/
def dataMark : List Char := "data: ".data

/-- The `"[DONE]"` sentinel payload. -/
def doneMark : List Char := "[DONE]".data

/-- Boolean prefix test, as `str::starts_with` (byte prefix; the marker is
ASCII, so char prefix and byte prefix coincide). -/
def startsWith : List Char → List Char → Bool
  | [], _ => true
  | _ :: _, [] => false
  | p :: ps, c :: cs => p == c && startsWith ps cs

/-- The error value a single stream element can carry: the
`"Failed to parse chunk"`-context parse error (src/main.rs line 261) or
the `"No valid data in chunk"` failure (src/main.rs line 266). -/
inductive DecodeError where
| parseError (msg : String) : DecodeError
| noValidData : DecodeError
deriving DecidableEq

/-- The `for line in text.lines()` loop body of `chat_completion_stream`
(src/main.rs lines 254-266): scan lines in order; a line starting with
`"data: "` has its payload `&line[6..]` taken; a `"[DONE]"` payload is
skipped; otherwise the payload's parse result is returned (a parse
failure propagates via `?`).  If no line returns, the closure ends with
`anyhow::bail!("No valid data in chunk")`.  The external
`serde_json::from_str` is the parameter `parse`. -/
def scanLines (parse : List Char → Except String ChatCompletionChunk) :
    List (List Char) → Except DecodeError ChatCompletionChunk
  | [] => .error .noValidData
  | line :: rest =>
    if startsWith dataMark line then
      if line.drop 6 = doneMark then scanLines parse rest
      else
        match parse (line.drop 6) with
        | .ok c => .ok c
        | .error e => .error (.parseError e)
    else scanLines parse rest

/-- Decode the text of one raw network read (after lossy decoding). -/
def processText (parse : List Char → Except String ChatCompletionChunk)
    (text : List Char) : Except DecodeError ChatCompletionChunk :=
  scanLines parse (rustLines text)

/-- Decode one raw network read: lossy-decode the bytes, split into
lines, scan (src/main.rs lines 250-266). -/
def decodeRead (parse : List Char → Except String ChatCompletionChunk)
    (bytes : List Nat) : Except DecodeError ChatCompletionChunk :=
  processText parse (utf8DecodeLossy bytes)

/-- The mapped stream `response.bytes_stream().map(...)`
(src/main.rs lines 250-267): one element per upstream read. -/
def decodeStream (parse : List Char → Except String ChatCompletionChunk)
    (reads : List (List Nat)) : List (Except DecodeError ChatCompletionChunk) :=
  reads.map (decodeRead parse)

/-- The payload of a line, when the line carries one. -/
def extractData (line : List Char) : Option (List Char) :=
  if startsWith dataMark line then some (line.drop 6) else none

/-- The payload of the first `"data: "` line whose payload is not
`"[DONE]"` — the specification's description of what one read yields. -/
def firstData (ls : List (List Char)) : Option (List Char) :=
  (ls.filterMap extractData).find? (fun p => p ≠ doneMark)

/-! ### HTTP status handling of the four operations
(src/main.rs lines 197-325) -/

/-- An HTTP response, reduced to what the client inspects: the status
code and the body text (`response.text()` / the bytes for streaming). -/
structure HttpResponse where
  status : Nat
  body : String

/-- `reqwest::StatusCode::is_success`: `200..=299`. -/
def isSuccessStatus (s : Nat) : Bool := 200 ≤ s && s ≤ 299

/-- The failure cases an operation distinguishes after the request was
sent: the API error built from a non-success status and the body text
(`anyhow::bail!("API error ({}): {}", status, error_text)`), and the
body parse failure (`.context("Failed to parse ... response")`). -/
inductive ClientError where
| apiError (status : Nat) (body : String) : ClientError
| parseError (ctx : String) : ClientError
deriving DecidableEq

/-- The message of the API error of `chat_completion`, `completion` and
`embedding` (src/main.rs lines 217, 290, 317); `Nat.repr` stands for the
numeric status code with which `StatusCode`'s display begins. -/
def apiErrMsg (s : Nat) (b : String) : String :=
  "API error (" ++ Nat.repr s ++ "): " ++ b

/-- The message of the API error of `chat_completion_stream`
(src/main.rs line 247 — no space before the parenthesis). -/
def apiErrMsgStream (s : Nat) (b : String) : String :=
  "API error(" ++ Nat.repr s ++ "): " ++ b

/-- `chat_completion` after the request was sent (src/main.rs lines
214-223): non-success status short-circuits to the API error; otherwise
the body is parsed (`parseBody` models the external
`Response::json::<ChatCompletionResponse>`). -/
def chatCompletionResult (resp : HttpResponse)
    (parseBody : String → Except String ChatCompletionResponse) :
    Except ClientError ChatCompletionResponse :=
  if isSuccessStatus resp.status then
    match parseBody resp.body with
    | .ok v => .ok v
    | .error _ => .error (.parseError "Failed to parse chat completion response")
  else .error (.apiError resp.status resp.body)

/-- `chat_completion_stream` after the request was sent (src/main.rs
lines 244-269): non-success status short-circuits to the API error;
otherwise the byte stream is wrapped in the decoder. -/
def chatCompletionStreamResult (resp : HttpResponse) (reads : List (List Nat))
    (parse : List Char → Except String ChatCompletionChunk) :
    Except ClientError (List (Except DecodeError ChatCompletionChunk)) :=
  if isSuccessStatus resp.status then .ok (decodeStream parse reads)
  else .error (.apiError resp.status resp.body)

/-- `completion` after the request was sent (src/main.rs lines 287-296). -/
def completionResult (resp : HttpResponse)
    (parseBody : String → Except String CompletionResponse) :
    Except ClientError CompletionResponse :=
  if isSuccessStatus resp.status then
    match parseBody resp.body with
    | .ok v => .ok v
    | .error _ => .error (.parseError "Failed to parse completion response")
  else .error (.apiError resp.status resp.body)

/-- `embedding` after the request was sent (src/main.rs lines 314-323). -/
def embeddingResult (resp : HttpResponse)
    (parseBody : String → Except String EmbeddingResponse) :
    Except ClientError EmbeddingResponse :=
  if isSuccessStatus resp.status then
    match parseBody resp.body with
    | .ok v => .ok v
    | .error _ => .error (.parseError "Failed to parse embedding response")
  else .error (.apiError resp.status resp.body)

/-! ### Concrete inputs used to evaluate the definitions -/

/-- A JSON string literal, as characters. -/
def jstr (s : String) : List Char := qt :: s.data ++ [qt]

/-- The JSON text of a minimal valid chunk with id `"a"`. -/
def payloadA : List Char :=
  [lcb] ++ jstr "id" ++ [':'] ++ jstr "a" ++ [','] ++ jstr "object" ++ [':'] ++ jstr "o"
    ++ [','] ++ jstr "created" ++ [':', '1', ','] ++ jstr "model" ++ [':'] ++ jstr "m"
    ++ [','] ++ jstr "choices" ++ [':', '[', ']'] ++ [rcb]

/-- The JSON text of a minimal valid chunk with id `"b"`. -/
def payloadB : List Char :=
  [lcb] ++ jstr "id" ++ [':'] ++ jstr "b" ++ [','] ++ jstr "object" ++ [':'] ++ jstr "o"
    ++ [','] ++ jstr "created" ++ [':', '2', ','] ++ jstr "model" ++ [':'] ++ jstr "m"
    ++ [','] ++ jstr "choices" ++ [':', '[', ']'] ++ [rcb]

/-- The chunk value `payloadA` denotes. -/
def chunkA : ChatCompletionChunk := ⟨"a", "o", 1, "m", []⟩

/-- The chunk value `payloadB` denotes. -/
def chunkB : ChatCompletionChunk := ⟨"b", "o", 2, "m", []⟩

/-- The bytes of one network read carrying the `payloadA` data line. -/
def lineBytesA : List Nat := ((dataMark ++ payloadA) ++ ['\n']).map Char.toNat

/-- The bytes of one network read carrying the `payloadB` data line. -/
def lineBytesB : List Nat := ((dataMark ++ payloadB) ++ ['\n']).map Char.toNat

/-- The bytes of a read whose only data line has the unparseable payload
`x`. -/
def badReadBytes : List Nat := "data: x\n".data.map Char.toNat

/-! ### Helper lemmas -/

/-- `splitOnNl` always returns at least one segment. -/
theorem splitOnNl_ne_nil (s : List Char) : splitOnNl s ≠ [] := by
  induction s with
  | nil => simp [splitOnNl]
  | cons c cs ih =>
    simp only [splitOnNl]
    split
    · simp
    · cases h : splitOnNl cs with
      | nil => simp
      | cons a as => simp

/-- Splitting text that begins with a newline-terminated line. -/
theorem splitOnNl_append (l rest : List Char) (h : '\n' ∉ l) :
    splitOnNl (l ++ '\n' :: rest) = l :: splitOnNl rest := by
  induction l with
  | nil => simp [splitOnNl]
  | cons c cs ih =>
    have hc : c ≠ '\n' := fun hc => h (hc ▸ List.mem_cons_self c cs)
    have hcs : '\n' ∉ cs := fun hm => h (List.mem_cons_of_mem c hm)
    simp only [List.cons_append, splitOnNl, if_neg hc, List.append_eq]
    rw [ih hcs]

/-- `linesGo` on a non-final segment. -/
theorem linesGo_cons (seg : List Char) (ss : List (List Char)) (h : ss ≠ []) :
    linesGo (seg :: ss) = stripTrailingCr seg :: linesGo ss := by
  cases ss with
  | nil => exact absurd rfl h
  | cons a as => rfl

/-- `str::lines` on text that begins with a newline-terminated line. -/
theorem rustLines_cons (l rest : List Char) (h : '\n' ∉ l) :
    rustLines (l ++ '\n' :: rest) = stripTrailingCr l :: rustLines rest := by
  unfold rustLines
  rw [splitOnNl_append l rest h]
  exact linesGo_cons l (splitOnNl rest) (splitOnNl_ne_nil rest)

/-- A line not ending in a carriage return is unchanged. -/
theorem stripTrailingCr_eq (l : List Char) (h : l.getLast? ≠ some (Char.ofNat 13)) :
    stripTrailingCr l = l := by
  unfold stripTrailingCr
  rw [if_neg h]

/-- A prefix list passes the `startsWith` test. -/
theorem startsWith_append (p s : List Char) : startsWith p (p ++ s) = true := by
  induction p with
  | nil => rfl
  | cons c cs ih => simp [startsWith, ih]

/-- `startsWith` bounds the line length by the marker length. -/
theorem startsWith_le_length (p l : List Char) (h : startsWith p l = true) :
    p.length ≤ l.length := by
  induction p generalizing l with
  | nil => simp
  | cons c cs ih =>
    cases l with
    | nil => simp [startsWith] at h
    | cons d ds =>
      simp only [startsWith, Bool.and_eq_true] at h
      simpa using ih ds h.2

/-- `startsWith` means the line is the marker followed by the rest. -/
theorem startsWith_append_drop (p l : List Char) (h : startsWith p l = true) :
    p ++ l.drop p.length = l := by
  induction p generalizing l with
  | nil => simp
  | cons c cs ih =>
    cases l with
    | nil => simp [startsWith] at h
    | cons d ds =>
      simp only [startsWith, Bool.and_eq_true, beq_iff_eq] at h
      simp [h.1, ih ds h.2]

/-- Dropping the six marker characters of a marked line. -/
theorem drop_dataMark (p : List Char) : (dataMark ++ p).drop 6 = p :=
  List.drop_left' rfl

/-- The scan skips a line without the marker. -/
theorem scanLines_skip (parse : List Char → Except String ChatCompletionChunk)
    (line : List Char) (rest : List (List Char))
    (h : startsWith dataMark line = false) :
    scanLines parse (line :: rest) = scanLines parse rest := by
  simp [scanLines, h]

/-- The scan skips a `[DONE]` line and keeps scanning. -/
theorem scanLines_done (parse : List Char → Except String ChatCompletionChunk)
    (rest : List (List Char)) :
    scanLines parse ((dataMark ++ doneMark) :: rest) = scanLines parse rest := by
  simp [scanLines, startsWith_append, drop_dataMark]

/-- The scan stops at a marked line with a non-`[DONE]` payload and
returns its parse result. -/
theorem scanLines_hit (parse : List Char → Except String ChatCompletionChunk)
    (p : List Char) (rest : List (List Char)) (c : ChatCompletionChunk)
    (hp : parse p = .ok c) (hd : p ≠ doneMark) :
    scanLines parse ((dataMark ++ p) :: rest) = .ok c := by
  simp [scanLines, startsWith_append, drop_dataMark, hd, hp]

/-- The last character of a marked line is the payload's (or the marker's
space when the payload is empty); it is never a carriage return when the
payload does not end in one. -/
theorem dataMark_getLast (p : List Char) (h : p.getLast? ≠ some (Char.ofNat 13)) :
    (dataMark ++ p).getLast? ≠ some (Char.ofNat 13) := by
  rw [List.getLast?_append]
  cases hp : p.getLast? with
  | none => simp [hp]; decide
  | some x =>
    rw [hp] at h
    simpa using fun hx => h (by rw [hx])

/-- One read whose text is a single marked line with a parseable payload
decodes to that parse result, whatever follows the line. -/
theorem processText_data_ok (parse : List Char → Except String ChatCompletionChunk)
    (p rest : List Char) (c : ChatCompletionChunk)
    (hp : parse p = .ok c) (hd : p ≠ doneMark) (hn : '\n' ∉ p)
    (hc : p.getLast? ≠ some (Char.ofNat 13)) :
    processText parse ((dataMark ++ p) ++ '\n' :: rest) = .ok c := by
  have hnm : '\n' ∉ dataMark ++ p := by
    intro hm
    rcases List.mem_append.mp hm with h1 | h2
    · revert h1; decide
    · exact hn h2
  unfold processText
  rw [rustLines_cons (dataMark ++ p) rest hnm,
    stripTrailingCr_eq (dataMark ++ p) (dataMark_getLast p hc)]
  exact scanLines_hit parse p (rustLines rest) c hp hd

/-- The scan loop realizes the specification's description: the element
is the parse result of the payload of the first marked line whose
payload is not the sentinel. -/
theorem scanLines_eq_firstData (parse : List Char → Except String ChatCompletionChunk)
    (ls : List (List Char)) :
    scanLines parse ls =
      (match firstData ls with
      | none => .error .noValidData
      | some p =>
        match parse p with
        | .ok c => .ok c
        | .error e => .error (.parseError e)) := by
  induction ls with
  | nil => rfl
  | cons line rest ih =>
    by_cases hs : startsWith dataMark line = true
    · have hex : extractData line = some (line.drop 6) := by simp [extractData, hs]
      by_cases hd : line.drop 6 = doneMark
      · have h1 : scanLines parse (line :: rest) = scanLines parse rest := by
          simp [scanLines, hs, hd]
        have h2 : firstData (line :: rest) = firstData rest := by
          simp [firstData, List.filterMap_cons_some hex, hd]
        rw [h1, h2, ih]
      · have h2 : firstData (line :: rest) = some (line.drop 6) := by
          simp [firstData, List.filterMap_cons_some hex, hd]
        rw [h2]
        simp only [scanLines, hs, if_true, if_neg hd]
    · have hs2 : startsWith dataMark line = false := by
        simpa using hs
      have hex : extractData line = none := by simp [extractData, hs2]
      have h2 : firstData (line :: rest) = firstData rest := by
        simp [firstData, List.filterMap_cons_none hex]
      rw [scanLines_skip parse line rest hs2, h2, ih]

/-- A read in which every marked line carries the sentinel payload scans
to the no-valid-data failure. -/
theorem scanLines_all_done (parse : List Char → Except String ChatCompletionChunk)
    (ls : List (List Char))
    (h : ∀ line ∈ ls, startsWith dataMark line = true → line.drop 6 = doneMark) :
    scanLines parse ls = .error .noValidData := by
  induction ls with
  | nil => rfl
  | cons line rest ih =>
    have hrest : ∀ l ∈ rest, startsWith dataMark l = true → l.drop 6 = doneMark :=
      fun l hl => h l (List.mem_cons_of_mem line hl)
    by_cases hs : startsWith dataMark line = true
    · have hd := h line (List.mem_cons_self line rest) hs
      have h1 : scanLines parse (line :: rest) = scanLines parse rest := by
        simp [scanLines, hs, hd]
      rw [h1]
      exact ih hrest
    · rw [scanLines_skip parse line rest (by simpa using hs)]
      exact ih hrest

/-- One decoding step of a nonempty byte list always emits at least one
character: invalid sequences are replaced by U+FFFD, never dropped. -/
theorem utf8Go_cons_ne_nil (fuel : Nat) (b : Nat) (bs : List Nat) :
    utf8Go (fuel + 1) (b :: bs) ≠ [] := by
  rw [utf8Go.eq_def]
  repeat' split
  all_goals simp_all

/-- Decoding a nonempty read yields nonempty text. -/
theorem utf8DecodeLossy_cons_ne_nil (b : Nat) (bs : List Nat) :
    utf8DecodeLossy (b :: bs) ≠ [] :=
  utf8Go_cons_ne_nil bs.length b bs

/-- A junk line consisting of one invalid byte is replaced, and the scan
continues with the rest of the read unchanged. -/
theorem decodeRead_junk_line (parse : List Char → Except String ChatCompletionChunk)
    (bs : List Nat) :
    decodeRead parse (255 :: 10 :: bs) = decodeRead parse bs := by
  have h1 : utf8DecodeLossy (255 :: 10 :: bs) = [repl] ++ '\n' :: utf8DecodeLossy bs := rfl
  have h2 : '\n' ∉ [repl] := by decide
  unfold decodeRead processText
  rw [h1, rustLines_cons [repl] (utf8DecodeLossy bs) h2]
  have h3 : stripTrailingCr [repl] = [repl] := by decide
  rw [h3]
  exact scanLines_skip parse [repl] (rustLines (utf8DecodeLossy bs)) (by decide)

/-! ### The claims -/

/-- C1: for every raw network read, the streaming decoder lossy-decodes
the bytes to text, splits into lines, and yields as that read's single
element the parse result of the payload of the first `data: ` line whose
payload is not `[DONE]`; in particular a read containing `data: `
followed by a valid chunk JSON yields exactly one successfully parsed
chunk equal to that JSON, whatever later lines (including later
`data: ` lines) the same read contains. -/
theorem claim_C1 :
    (∀ (parse : List Char → Except String ChatCompletionChunk) (ls : List (List Char)),
      scanLines parse ls =
        (match firstData ls with
        | none => .error .noValidData
        | some p =>
          match parse p with
          | .ok c => .ok c
          | .error e => .error (.parseError e)))
    ∧ (∀ (parse : List Char → Except String ChatCompletionChunk) (p rest : List Char)
        (c : ChatCompletionChunk),
        parse p = .ok c → p ≠ doneMark → '\n' ∉ p →
        p.getLast? ≠ some (Char.ofNat 13) →
        processText parse ((dataMark ++ p) ++ '\n' :: rest) = .ok c) :=
  ⟨scanLines_eq_firstData,
   fun parse p rest c h1 h2 h3 h4 => processText_data_ok parse p rest c h1 h2 h3 h4⟩

/-- Witness for C1: a read holding the `payloadA` data line followed by a
second data line (`payloadB`) yields exactly the chunk of `payloadA`; the
later data line of the same read is not surfaced. -/
theorem claim_C1_witness :
    processText parseChunkText
        ((dataMark ++ payloadA) ++ '\n' :: (dataMark ++ payloadB ++ ['\n'])) =
      .ok chunkA :=
  claim_C1.2 parseChunkText payloadA (dataMark ++ payloadB ++ ['\n']) chunkA
    rfl (by decide) (by decide) (by decide)

/-- C2 (amended): a read in which every `data: ` line carries the
`[DONE]` payload — in particular one with no `data: ` line at all —
yields the single `No valid data in chunk` failure; the `[DONE]`
sentinel is skipped, never a terminator; and the decoded sequence has
exactly one element per upstream read, so it ends exactly when the byte
stream ends.  (A read whose first non-`[DONE]` payload fails to parse
yields that parse error instead — see the counterexample.) -/
theorem claim_C2 :
    (∀ (parse : List Char → Except String ChatCompletionChunk) (text : List Char),
      (∀ line ∈ rustLines text, startsWith dataMark line = true → line.drop 6 = doneMark) →
      processText parse text = .error .noValidData)
    ∧ (∀ (parse : List Char → Except String ChatCompletionChunk) (rest : List (List Char)),
        scanLines parse ((dataMark ++ doneMark) :: rest) = scanLines parse rest)
    ∧ (∀ (parse : List Char → Except String ChatCompletionChunk) (reads : List (List Nat)),
        (decodeStream parse reads).length = reads.length) :=
  ⟨fun parse text h => scanLines_all_done parse (rustLines text) h,
   scanLines_done,
   fun parse reads => by simp [decodeStream]⟩

/-- Witness for C2 (amended): the read `data: [DONE]\n` yields exactly
the no-valid-data failure. -/
theorem claim_C2_witness :
    processText parseChunkText ("data: [DONE]\n".data) = .error .noValidData :=
  claim_C2.1 parseChunkText ("data: [DONE]\n".data) (by decide)

/-- Counterexample to C2 as stated: in the read `data: x\n` no `data: `
payload parses as a chunk (the only payload is `x`), yet the element
yielded is the parse failure propagated by `?` at src/main.rs line 261,
not an error indicating no valid data. -/
theorem claim_C2_counterexample :
    parseChunkText ['x'] = .error "invalid JSON"
    ∧ decodeRead parseChunkText badReadBytes = .error (.parseError "invalid JSON")
    ∧ decodeRead parseChunkText badReadBytes ≠ .error .noValidData := by
  refine ⟨rfl, rfl, ?_⟩
  intro h
  have h2 : decodeRead parseChunkText badReadBytes
      = .error (.parseError "invalid JSON") := rfl
  rw [h2] at h
  injection h with h3
  exact DecodeError.noConfusion h3

/-- C5: two consecutive reads, each decoding to a single `data: ` line
with a valid chunk payload, yield exactly two elements, one per read, in
order (here with ids `a` then `b`). -/
theorem claim_C5 :
    ∀ (parse : List Char → Except String ChatCompletionChunk)
      (b1 b2 : List Nat) (p1 p2 : List Char) (c1 c2 : ChatCompletionChunk),
      utf8DecodeLossy b1 = (dataMark ++ p1) ++ ['\n'] →
      utf8DecodeLossy b2 = (dataMark ++ p2) ++ ['\n'] →
      parse p1 = .ok c1 → parse p2 = .ok c2 →
      p1 ≠ doneMark → p2 ≠ doneMark → '\n' ∉ p1 → '\n' ∉ p2 →
      p1.getLast? ≠ some (Char.ofNat 13) → p2.getLast? ≠ some (Char.ofNat 13) →
      c1.id = "a" → c2.id = "b" →
      decodeStream parse [b1, b2] = [.ok c1, .ok c2] := by
  intro parse b1 b2 p1 p2 c1 c2 hu1 hu2 hp1 hp2 hd1 hd2 hn1 hn2 hc1 hc2 hid1 hid2
  have e1 : decodeRead parse b1 = .ok c1 := by
    unfold decodeRead
    rw [hu1]
    exact processText_data_ok parse p1 [] c1 hp1 hd1 hn1 hc1
  have e2 : decodeRead parse b2 = .ok c2 := by
    unfold decodeRead
    rw [hu2]
    exact processText_data_ok parse p2 [] c2 hp2 hd2 hn2 hc2
  simp [decodeStream, e1, e2]

/-- Witness for C5: the two concrete reads `data: {"id":"a",...}` and
`data: {"id":"b",...}` yield the chunks with ids `a` then `b`. -/
theorem claim_C5_witness :
    decodeStream parseChunkText [lineBytesA, lineBytesB] = [.ok chunkA, .ok chunkB] :=
  claim_C5 parseChunkText lineBytesA lineBytesB payloadA payloadB chunkA chunkB
    rfl rfl rfl rfl (by decide) (by decide) (by decide) (by decide)
    (by decide) (by decide) rfl rfl

/-- C6: lossy text decoding is total — an invalid byte (`0xFF` is valid
nowhere, `E2 82` is a truncated sequence) becomes the replacement
character U+FFFD rather than an error; bytes are never silently dropped
(a nonempty read decodes to nonempty text); and the replaced text is
still scanned, so a read whose junk bytes sit on their own line decodes
exactly as the remaining lines do. -/
theorem claim_C6 :
    (∀ bs : List Nat, utf8DecodeLossy (255 :: bs) = repl :: utf8DecodeLossy bs)
    ∧ utf8DecodeLossy [226, 130] = [repl]
    ∧ (∀ (b : Nat) (bs : List Nat), utf8DecodeLossy (b :: bs) ≠ [])
    ∧ (∀ (parse : List Char → Except String ChatCompletionChunk) (bs : List Nat),
        decodeRead parse (255 :: 10 :: bs) = decodeRead parse bs) :=
  ⟨fun _ => rfl, rfl, utf8DecodeLossy_cons_ne_nil, decodeRead_junk_line⟩

/-- C10: the `&line[6..]` slice is guarded: a line passing the
`starts_with("data: ")` test is at least six characters long and equals
the marker followed by the extracted payload (so the slice is in bounds
and on a character boundary); a line failing the test — for instance
`data:x` without the space — is ignored by the scan. -/
theorem claim_C10 :
    (∀ line : List Char, startsWith dataMark line = true → 6 ≤ line.length)
    ∧ (∀ line : List Char, startsWith dataMark line = true →
        dataMark ++ line.drop 6 = line)
    ∧ (∀ (parse : List Char → Except String ChatCompletionChunk)
        (line : List Char) (rest : List (List Char)),
        startsWith dataMark line = false →
        scanLines parse (line :: rest) = scanLines parse rest) :=
  ⟨fun line h => startsWith_le_length dataMark line h,
   fun line h => startsWith_append_drop dataMark line h,
   fun parse line rest h => scanLines_skip parse line rest h⟩

/-- Witness for C10: the test and the slice agree on `data: hi`, and the
spaceless line `data:x` is skipped by the scan. -/
theorem claim_C10_witness :
    6 ≤ ("data: hi".data).length
    ∧ dataMark ++ (("data: hi".data).drop 6) = "data: hi".data
    ∧ scanLines parseChunkText ["data:x".data] = scanLines parseChunkText [] :=
  ⟨claim_C10.1 ("data: hi".data) (by decide),
   claim_C10.2.1 ("data: hi".data) (by decide),
   claim_C10.2.2 parseChunkText ("data:x".data) [] (by decide)⟩

/-- C8: every fluent setter on the two request types updates exactly its
own field — the optional setters to `some` of the given value, `message`
by appending, `messages` by replacement — and leaves every other field
exactly as it was. -/
theorem claim_C8 :
    (∀ (r : ChatCompletionRequest) (t : Rat),
      (r.setTemperature t).temperature = some t
      ∧ (r.setTemperature t).model = r.model
      ∧ (r.setTemperature t).messages = r.messages
      ∧ (r.setTemperature t).max_tokens = r.max_tokens
      ∧ (r.setTemperature t).top_p = r.top_p
      ∧ (r.setTemperature t).stream = r.stream
      ∧ (r.setTemperature t).stop = r.stop)
    ∧ (∀ (r : ChatCompletionRequest) (n : Nat),
      (r.setMaxTokens n).max_tokens = some n
      ∧ (r.setMaxTokens n).model = r.model
      ∧ (r.setMaxTokens n).messages = r.messages
      ∧ (r.setMaxTokens n).temperature = r.temperature
      ∧ (r.setMaxTokens n).top_p = r.top_p
      ∧ (r.setMaxTokens n).stream = r.stream
      ∧ (r.setMaxTokens n).stop = r.stop)
    ∧ (∀ (r : ChatCompletionRequest) (x : Rat),
      (r.setTopP x).top_p = some x
      ∧ (r.setTopP x).model = r.model
      ∧ (r.setTopP x).messages = r.messages
      ∧ (r.setTopP x).temperature = r.temperature
      ∧ (r.setTopP x).max_tokens = r.max_tokens
      ∧ (r.setTopP x).stream = r.stream
      ∧ (r.setTopP x).stop = r.stop)
    ∧ (∀ (r : ChatCompletionRequest) (b : Bool),
      (r.setStream b).stream = some b
      ∧ (r.setStream b).model = r.model
      ∧ (r.setStream b).messages = r.messages
      ∧ (r.setStream b).temperature = r.temperature
      ∧ (r.setStream b).max_tokens = r.max_tokens
      ∧ (r.setStream b).top_p = r.top_p
      ∧ (r.setStream b).stop = r.stop)
    ∧ (∀ (r : ChatCompletionRequest) (xs : List String),
      (r.setStop xs).stop = some xs
      ∧ (r.setStop xs).model = r.model
      ∧ (r.setStop xs).messages = r.messages
      ∧ (r.setStop xs).temperature = r.temperature
      ∧ (r.setStop xs).max_tokens = r.max_tokens
      ∧ (r.setStop xs).top_p = r.top_p
      ∧ (r.setStop xs).stream = r.stream)
    ∧ (∀ (r : ChatCompletionRequest) (ms : List Message),
      (r.setMessages ms).messages = ms
      ∧ (r.setMessages ms).model = r.model
      ∧ (r.setMessages ms).temperature = r.temperature
      ∧ (r.setMessages ms).max_tokens = r.max_tokens
      ∧ (r.setMessages ms).top_p = r.top_p
      ∧ (r.setMessages ms).stream = r.stream
      ∧ (r.setMessages ms).stop = r.stop)
    ∧ (∀ (r : ChatCompletionRequest) (m : Message),
      (r.message m).messages = r.messages ++ [m]
      ∧ (r.message m).model = r.model
      ∧ (r.message m).temperature = r.temperature
      ∧ (r.message m).max_tokens = r.max_tokens
      ∧ (r.message m).top_p = r.top_p
      ∧ (r.message m).stream = r.stream
      ∧ (r.message m).stop = r.stop)
    ∧ (∀ (r : CompletionRequest) (t : Rat),
      (r.setTemperature t).temperature = some t
      ∧ (r.setTemperature t).model = r.model
      ∧ (r.setTemperature t).prompt = r.prompt
      ∧ (r.setTemperature t).max_tokens = r.max_tokens
      ∧ (r.setTemperature t).stream = r.stream)
    ∧ (∀ (r : CompletionRequest) (n : Nat),
      (r.setMaxTokens n).max_tokens = some n
      ∧ (r.setMaxTokens n).model = r.model
      ∧ (r.setMaxTokens n).prompt = r.prompt
      ∧ (r.setMaxTokens n).temperature = r.temperature
      ∧ (r.setMaxTokens n).stream = r.stream)
    ∧ (∀ (r : CompletionRequest) (b : Bool),
      (r.setStream b).stream = some b
      ∧ (r.setStream b).model = r.model
      ∧ (r.setStream b).prompt = r.prompt
      ∧ (r.setStream b).temperature = r.temperature
      ∧ (r.setStream b).max_tokens = r.max_tokens) :=
  ⟨fun _ _ => ⟨rfl, rfl, rfl, rfl, rfl, rfl, rfl⟩,
   fun _ _ => ⟨rfl, rfl, rfl, rfl, rfl, rfl, rfl⟩,
   fun _ _ => ⟨rfl, rfl, rfl, rfl, rfl, rfl, rfl⟩,
   fun _ _ => ⟨rfl, rfl, rfl, rfl, rfl, rfl, rfl⟩,
   fun _ _ => ⟨rfl, rfl, rfl, rfl, rfl, rfl, rfl⟩,
   fun _ _ => ⟨rfl, rfl, rfl, rfl, rfl, rfl, rfl⟩,
   fun _ _ => ⟨rfl, rfl, rfl, rfl, rfl, rfl, rfl⟩,
   fun _ _ => ⟨rfl, rfl, rfl, rfl, rfl⟩,
   fun _ _ => ⟨rfl, rfl, rfl, rfl, rfl⟩,
   fun _ _ => ⟨rfl, rfl, rfl, rfl, rfl⟩⟩

/-- C9: `message` appends to the end of the message list, `messages`
replaces the whole list, and `ChatCompletionRequest::new` starts with
the given model, an empty message list, and all five optionals unset. -/
theorem claim_C9 :
    (∀ (r : ChatCompletionRequest) (m : Message),
      (r.message m).messages = r.messages ++ [m])
    ∧ (∀ (r : ChatCompletionRequest) (ms : List Message),
      (r.setMessages ms).messages = ms)
    ∧ (∀ s : String,
      ChatCompletionRequest.new s = ⟨s, [], none, none, none, none, none⟩) :=
  ⟨fun _ _ => rfl, fun _ _ => rfl, fun _ => rfl⟩

/-- C3: serializing either request type omits every unset optional field
(no key at all, hence no `null` entry), includes every set optional
field with exactly the assigned value, and always includes the required
fields. -/
theorem claim_C3 :
    (∀ r : ChatCompletionRequest,
      findField (chatReqFields r) "model" = some (.str r.model)
      ∧ findField (chatReqFields r) "messages"
        = some (.arr (r.messages.map Message.toJson))
      ∧ findField (chatReqFields r) "temperature" = r.temperature.map Json.fnum
      ∧ findField (chatReqFields r) "max_tokens"
        = r.max_tokens.map (fun n => Json.num (Int.ofNat n))
      ∧ findField (chatReqFields r) "top_p" = r.top_p.map Json.fnum
      ∧ findField (chatReqFields r) "stream" = r.stream.map Json.bool
      ∧ findField (chatReqFields r) "stop"
        = r.stop.map (fun xs => Json.arr (xs.map Json.str)))
    ∧ (∀ r : CompletionRequest,
      findField (completionReqFields r) "model" = some (.str r.model)
      ∧ findField (completionReqFields r) "prompt" = some (.str r.prompt)
      ∧ findField (completionReqFields r) "temperature" = r.temperature.map Json.fnum
      ∧ findField (completionReqFields r) "max_tokens"
        = r.max_tokens.map (fun n => Json.num (Int.ofNat n))
      ∧ findField (completionReqFields r) "stream" = r.stream.map Json.bool) := by
  constructor
  · intro r
    obtain ⟨m, msgs, t, mt, tp, st, sp⟩ := r
    cases t <;> cases mt <;> cases tp <;> cases st <;> cases sp <;>
      exact ⟨rfl, rfl, rfl, rfl, rfl, rfl, rfl⟩
  · intro r
    obtain ⟨m, pr, t, mt, st⟩ := r
    cases t <;> cases mt <;> cases st <;>
      exact ⟨rfl, rfl, rfl, rfl, rfl⟩

/-- C4: whenever the HTTP response carries a non-success status, each of
the four operations returns the API error built from exactly that
status and body — for any body-parse function, so the body is never
parsed as the success type — and the rendered message contains both the
numeric status code and the body text; the API error is a different
constructor from the parse error. -/
theorem claim_C4 :
    ∀ resp : HttpResponse, isSuccessStatus resp.status = false →
      (∀ pb, chatCompletionResult resp pb = .error (.apiError resp.status resp.body))
      ∧ (∀ reads parse, chatCompletionStreamResult resp reads parse
          = .error (.apiError resp.status resp.body))
      ∧ (∀ pb, completionResult resp pb = .error (.apiError resp.status resp.body))
      ∧ (∀ pb, embeddingResult resp pb = .error (.apiError resp.status resp.body))
      ∧ (Nat.repr resp.status).data <:+: (apiErrMsg resp.status resp.body).data
      ∧ resp.body.data <:+: (apiErrMsg resp.status resp.body).data
      ∧ (Nat.repr resp.status).data <:+: (apiErrMsgStream resp.status resp.body).data
      ∧ resp.body.data <:+: (apiErrMsgStream resp.status resp.body).data
      ∧ (∀ (s : Nat) (b m : String), ClientError.apiError s b ≠ ClientError.parseError m) := by
  intro resp h
  have hd1 : (apiErrMsg resp.status resp.body).data
      = "API error (".data
        ++ ((Nat.repr resp.status).data ++ ("): ".data ++ resp.body.data)) := by
    simp [apiErrMsg, String.data_append]
  have hd2 : (apiErrMsgStream resp.status resp.body).data
      = "API error(".data
        ++ ((Nat.repr resp.status).data ++ ("): ".data ++ resp.body.data)) := by
    simp [apiErrMsgStream, String.data_append]
  refine ⟨?_, ?_, ?_, ?_, ?_, ?_, ?_, ?_, ?_⟩
  · intro pb
    simp [chatCompletionResult, h]
  · intro reads parse
    simp [chatCompletionStreamResult, h]
  · intro pb
    simp [completionResult, h]
  · intro pb
    simp [embeddingResult, h]
  · exact ⟨"API error (".data, "): ".data ++ resp.body.data, by rw [hd1]; simp⟩
  · exact ⟨"API error (".data ++ (Nat.repr resp.status).data ++ "): ".data, [],
      by rw [hd1]; simp⟩
  · exact ⟨"API error(".data, "): ".data ++ resp.body.data, by rw [hd2]; simp⟩
  · exact ⟨"API error(".data ++ (Nat.repr resp.status).data ++ "): ".data, [],
      by rw [hd2]; simp⟩
  · intro s b m heq
    exact ClientError.noConfusion heq

/-- Witness for C4: status 500 with body `oom` short-circuits
`chat_completion` to the API error carrying 500 and `oom`. -/
theorem claim_C4_witness :
    chatCompletionResult ⟨500, "oom"⟩ (fun _ => .error "ignored")
      = .error (.apiError 500 "oom") :=
  (claim_C4 ⟨500, "oom"⟩ (by decide)).1 (fun _ => .error "ignored")

/-- `Usage` deserializes with `completion_tokens` absent mapped to
`none`, the required token counts parsed as `u32`. -/
theorem fromJsonUsage_no_completion (n m : Int) (h1 : 0 ≤ n) (h2 : n < 4294967296)
    (h3 : 0 ≤ m) (h4 : m < 4294967296) :
    fromJsonUsage (.obj [("prompt_tokens", .num n), ("total_tokens", .num m)])
      = .ok ⟨n.toNat, none, m.toNat⟩ := by
  have r1 : reqU32 [("prompt_tokens", Json.num n), ("total_tokens", Json.num m)]
      "prompt_tokens" = .ok n.toNat := by
    rw [show reqU32 [("prompt_tokens", Json.num n), ("total_tokens", Json.num m)]
        "prompt_tokens" = asU32 (.num n) from rfl]
    simp only [asU32]
    rw [if_pos ⟨h1, h2⟩]
  have r3 : reqU32 [("prompt_tokens", Json.num n), ("total_tokens", Json.num m)]
      "total_tokens" = .ok m.toNat := by
    rw [show reqU32 [("prompt_tokens", Json.num n), ("total_tokens", Json.num m)]
        "total_tokens" = asU32 (.num m) from rfl]
    simp only [asU32]
    rw [if_pos ⟨h3, h4⟩]
  have r2 : asOptU32 (findField [("prompt_tokens", Json.num n),
      ("total_tokens", Json.num m)] "completion_tokens") = .ok none := rfl
  simp only [fromJsonUsage]
  rw [r1, r2, r3]

/-- `ChatChoice` deserializes with `finish_reason` absent mapped to
`none`. -/
theorem fromJsonChatChoice_no_finish (n : Int) (h1 : 0 ≤ n) (h2 : n < 4294967296) :
    fromJsonChatChoice (.obj [("index", .num n),
        ("message", .obj [("role", .str "assistant"), ("content", .str "hi")])])
      = .ok ⟨n.toNat, ⟨"assistant", "hi"⟩, none⟩ := by
  have r1 : reqU32 [("index", Json.num n),
      ("message", Json.obj [("role", Json.str "assistant"), ("content", Json.str "hi")])]
      "index" = .ok n.toNat := by
    rw [show reqU32 [("index", Json.num n),
        ("message", Json.obj [("role", Json.str "assistant"), ("content", Json.str "hi")])]
        "index" = asU32 (.num n) from rfl]
    simp only [asU32]
    rw [if_pos ⟨h1, h2⟩]
  have r2 : (reqField [("index", Json.num n),
      ("message", Json.obj [("role", Json.str "assistant"), ("content", Json.str "hi")])]
      "message").bind fromJsonMessage = .ok ⟨"assistant", "hi"⟩ := rfl
  have r3 : asOptStr (findField [("index", Json.num n),
      ("message", Json.obj [("role", Json.str "assistant"), ("content", Json.str "hi")])]
      "finish_reason") = .ok none := rfl
  simp only [fromJsonChatChoice]
  rw [r1, r2, r3]

/-- A response object lacking the required `model` field fails to
deserialize. -/
theorem fromJsonResponse_missing_model (kvs : List (String × Json))
    (h : findField kvs "model" = none) :
    (fromJsonChatCompletionResponse (.obj kvs)).isOk = false := by
  have hm : reqStr kvs "model" = .error ("missing field: " ++ "model") := by
    unfold reqStr
    rw [h]
  rcases e1 : reqStr kvs "id" with a1 | v1 <;>
  rcases e2 : reqStr kvs "object" with a2 | v2 <;>
  rcases e3 : reqU64 kvs "created" with a3 | v3 <;>
  rcases e5 : reqChoices kvs with a5 | v5 <;>
  rcases e6 : reqUsage kvs with a6 | v6 <;>
    simp only [fromJsonChatCompletionResponse, e1, e2, e3, hm, e5, e6,
      Except.isOk, Except.toBool]

/-- A response object whose `model` field is a number (wrong type) fails
to deserialize. -/
theorem fromJsonResponse_model_wrong_type (kvs : List (String × Json)) (n : Int)
    (h : findField kvs "model" = some (.num n)) :
    (fromJsonChatCompletionResponse (.obj kvs)).isOk = false := by
  have hm : reqStr kvs "model" = .error "expected string" := by
    unfold reqStr
    rw [h]
    rfl
  rcases e1 : reqStr kvs "id" with a1 | v1 <;>
  rcases e2 : reqStr kvs "object" with a2 | v2 <;>
  rcases e3 : reqU64 kvs "created" with a3 | v3 <;>
  rcases e5 : reqChoices kvs with a5 | v5 <;>
  rcases e6 : reqUsage kvs with a6 | v6 <;>
    simp only [fromJsonChatCompletionResponse, e1, e2, e3, hm, e5, e6,
      Except.isOk, Except.toBool]

/-- A response object lacking the required `choices` field fails to
deserialize. -/
theorem fromJsonResponse_missing_choices (kvs : List (String × Json))
    (h : findField kvs "choices" = none) :
    (fromJsonChatCompletionResponse (.obj kvs)).isOk = false := by
  have hc : reqChoices kvs = .error "missing field: choices" := by
    unfold reqChoices
    rw [h]
  rcases e1 : reqStr kvs "id" with a1 | v1 <;>
  rcases e2 : reqStr kvs "object" with a2 | v2 <;>
  rcases e3 : reqU64 kvs "created" with a3 | v3 <;>
  rcases e4 : reqStr kvs "model" with a4 | v4 <;>
  rcases e6 : reqUsage kvs with a6 | v6 <;>
    simp only [fromJsonChatCompletionResponse, e1, e2, e3, e4, hc, e6,
      Except.isOk, Except.toBool]

/-- A response object whose `usage` field is a string (wrong shape)
fails to deserialize. -/
theorem fromJsonResponse_usage_wrong_shape (kvs : List (String × Json)) (s : String)
    (h : findField kvs "usage" = some (.str s)) :
    (fromJsonChatCompletionResponse (.obj kvs)).isOk = false := by
  have hu : reqUsage kvs = .error "expected object" := by
    unfold reqUsage
    rw [h]
    rfl
  rcases e1 : reqStr kvs "id" with a1 | v1 <;>
  rcases e2 : reqStr kvs "object" with a2 | v2 <;>
  rcases e3 : reqU64 kvs "created" with a3 | v3 <;>
  rcases e4 : reqStr kvs "model" with a4 | v4 <;>
  rcases e5 : reqChoices kvs with a5 | v5 <;>
    simp only [fromJsonChatCompletionResponse, e1, e2, e3, e4, e5, hu,
      Except.isOk, Except.toBool]

/-- C7: response deserialization tolerates absent optional fields —
`Usage.completion_tokens`, `ChatChoice.finish_reason`, and both `Delta`
fields absent map to `none`, not an error — and fails with a parse error
whenever a required field such as `model` or `choices` is missing or of
the wrong type, or the `usage` value has the wrong shape. -/
theorem claim_C7 :
    (∀ n m : Int, 0 ≤ n → n < 4294967296 → 0 ≤ m → m < 4294967296 →
      fromJsonUsage (.obj [("prompt_tokens", .num n), ("total_tokens", .num m)])
        = .ok ⟨n.toNat, none, m.toNat⟩)
    ∧ (∀ n : Int, 0 ≤ n → n < 4294967296 →
      fromJsonChatChoice (.obj [("index", .num n),
          ("message", .obj [("role", .str "assistant"), ("content", .str "hi")])])
        = .ok ⟨n.toNat, ⟨"assistant", "hi"⟩, none⟩)
    ∧ fromJsonDelta (.obj []) = .ok ⟨none, none⟩
    ∧ (∀ kvs : List (String × Json), findField kvs "model" = none →
      (fromJsonChatCompletionResponse (.obj kvs)).isOk = false)
    ∧ (∀ (kvs : List (String × Json)) (n : Int),
      findField kvs "model" = some (.num n) →
      (fromJsonChatCompletionResponse (.obj kvs)).isOk = false)
    ∧ (∀ kvs : List (String × Json), findField kvs "choices" = none →
      (fromJsonChatCompletionResponse (.obj kvs)).isOk = false)
    ∧ (∀ (kvs : List (String × Json)) (s : String),
      findField kvs "usage" = some (.str s) →
      (fromJsonChatCompletionResponse (.obj kvs)).isOk = false) :=
  ⟨fromJsonUsage_no_completion, fromJsonChatChoice_no_finish, rfl,
   fromJsonResponse_missing_model, fromJsonResponse_model_wrong_type,
   fromJsonResponse_missing_choices, fromJsonResponse_usage_wrong_shape⟩

/-- Witness for C7: concrete instances of each hypothesised conjunct —
a `Usage` without `completion_tokens`, a `ChatChoice` without
`finish_reason`, and response objects with `model` missing, `model` a
number, `choices` missing, and `usage` a string. -/
theorem claim_C7_witness :
    fromJsonUsage (.obj [("prompt_tokens", .num 3), ("total_tokens", .num 5)])
      = .ok ⟨3, none, 5⟩
    ∧ fromJsonChatChoice (.obj [("index", .num 0),
        ("message", .obj [("role", .str "assistant"), ("content", .str "hi")])])
      = .ok ⟨0, ⟨"assistant", "hi"⟩, none⟩
    ∧ (fromJsonChatCompletionResponse (.obj [])).isOk = false
    ∧ (fromJsonChatCompletionResponse (.obj [("model", .num 1)])).isOk = false
    ∧ (fromJsonChatCompletionResponse (.obj [("usage", .str "x")])).isOk = false :=
  ⟨claim_C7.1 3 5 (by decide) (by decide) (by decide) (by decide),
   claim_C7.2.1 0 (by decide) (by decide),
   claim_C7.2.2.2.1 [] rfl,
   claim_C7.2.2.2.2.1 [("model", .num 1)] 1 rfl,
   claim_C7.2.2.2.2.2.2 [("usage", .str "x")] "x" rfl⟩

end Lancor
